import Mathlib

/-!
Verification of the snappy assertion trust engine against its
natural-language specification.

The development shallowly embeds:
  * the HTTP client `Asserts` operation (src/client/asserts.go);
  * the filesystem keypair manager (src/asserts/fskeypairmgr.go);
  * the assertion database (`Add`, `Find`, `FindMany`) and the daemon's
    assertion endpoints; these are not present in the excerpted sources
    (only their tests are), so they are modelled from the specification,
    faithful to its wording, and marked as such.

Machine integers are modelled as `Nat`/`Int` (the quantities involved —
assertion counts, revisions — are far from any overflow boundary),
byte strings as `List Nat`, and timestamps as naturals.
-/

/-- Signature of an assertion: the signature envelope names the signing
key's id, and (modelling the cryptography) records which key fingerprint
produced it and over which canonical content (headers + body) it was
computed.  A signature verifies under a public key exactly when the
fingerprints agree and the recorded content equals the assertion's
actual headers and body. -/
structure Signature where
  keyID : String
  signedBy : String
  content : List (String × String) × List Nat
deriving DecidableEq, Repr

/-- An assertion: a typed, signed statement with a header mapping and an
optional body (spec §3). -/
structure Assertion where
  type : String
  headers : List (String × String)
  body : List Nat
  sig : Signature
deriving DecidableEq, Repr

/-- Header lookup by name (first occurrence wins, as in a map). -/
def Assertion.getHeader (a : Assertion) (n : String) : Option String :=
  List.lookup n a.headers

/-- Value of a decimal digit character, `none` for non-digits. -/
def parseDigitsAux : List Char → Nat → Option Nat
  | [], acc => some acc
  | c :: cs, acc =>
    if c.isDigit then parseDigitsAux cs (acc * 10 + (c.toNat - 48)) else none

/-- Parse a non-empty all-digit character list as a natural number. -/
def parseDigits : List Char → Option Nat
  | [] => none
  | cs => parseDigitsAux cs 0

/-- Parse a decimal natural number from a string. -/
def parseNatStr (s : String) : Option Nat :=
  parseDigits s.toList

/-- Model of Go's `strconv.Atoi`: an optional sign followed by one or
more decimal digits; anything else (including the empty string, which is
what a missing HTTP header yields) is an error, modelled as `none`. -/
def goAtoi (s : String) : Option Int :=
  match s.toList with
  | '+' :: cs => (parseDigits cs).map Int.ofNat
  | '-' :: cs => (parseDigits cs).map fun n => -(n : Int)
  | cs => (parseDigits cs).map Int.ofNat

/-- Errors the client surfaces from `Asserts` (src/client/asserts.go):
either the parsed server error for a non-200 response, or a message
built locally. -/
inductive ClientError where
  | httpError (status : Nat)
  | errMsg (s : String)
deriving DecidableEq, Repr

namespace Client

/-- The client `Asserts` operation (src/client/asserts.go, lines 47–92),
after the HTTP exchange succeeded: given the response status, the raw
value of the `X-Ubuntu-Assertions-Count` header (the empty string when
the header is absent, as with Go's `Header.Get`), and the outcome of
running the stream decoder over the response body (`.ok` with the decoded
assertions if decoding reached end-of-stream, `.error` if the decoder
failed), it returns the assertions or the corresponding error. -/
def Asserts (status : Nat) (countHeader : String)
    (bodyDecode : Except String (List Assertion)) :
    Except ClientError (List Assertion) :=
  if status ≠ 200 then
    .error (.httpError status)
  else
    match goAtoi countHeader with
    | none => .error (.errMsg "invalid assertions count")
    | some n =>
      match bodyDecode with
      | .error e => .error (.errMsg ("failed to decode assertions: " ++ e))
      | .ok decoded =>
        if (decoded.length : Int) = n then
          .ok decoded
        else
          .error (.errMsg "response did not have the expected number of assertions")

end Client

/-- A private key: its public part's derived key id (what Go's
`privKey.PublicKey().ID()` computes) together with the key material,
modelled opaquely as a natural. -/
structure PrivateKey where
  keyID : String
  material : Nat
deriving DecidableEq, Repr

/-- Modelled from the spec: the on-disk bytes of a keypair entry.  The
codec functions `encodePrivateKey`/`decodePrivateKey` used by
src/asserts/fskeypairmgr.go are not in the excerpted sources; a stored
blob is either a correctly serialized private key or corrupt bytes that
fail to decode (spec §4.1: `Get` fails with `DecodeError` if the stored
bytes are corrupt). -/
inductive Blob where
  | key (k : PrivateKey)
  | corrupt (junk : Nat)
deriving DecidableEq, Repr

/-- Modelled from the spec: serialization of a private key for storage
(`encodePrivateKey`, not in src/). -/
def encodePrivateKey (k : PrivateKey) : Blob :=
  .key k

/-- Modelled from the spec: deserialization of stored keypair bytes
(`decodePrivateKey`, not in src/); corrupt bytes do not decode. -/
def decodePrivateKey : Blob → Option PrivateKey
  | .key k => some k
  | .corrupt _ => none

/-- Whether a character is left unescaped by Go's `url.QueryEscape`:
alphanumerics and `-`, `_`, `.`, `~`. -/
def isUnreservedQueryChar (c : Char) : Bool :=
  c.isAlphanum || c = '-' || c = '_' || c = '.' || c = '~'

/-- Uppercase hexadecimal digit for a value below 16. -/
def hexDigit (n : Nat) : Char :=
  if n < 10 then Char.ofNat (48 + n) else Char.ofNat (55 + n)

/-- Percent-escaping of a single character, following Go's
`url.QueryEscape`: unreserved characters pass through, a space becomes
`+`, anything else becomes `%XX` (modelled at character level, which
coincides with Go's per-byte escaping on ASCII input). -/
def escapeQueryChar (c : Char) : List Char :=
  if isUnreservedQueryChar c then [c]
  else if c = ' ' then ['+']
  else ['%', hexDigit (c.toNat / 16), hexDigit (c.toNat % 16)]

/-- Model of Go's `url.QueryEscape`. -/
def queryEscape (s : String) : String :=
  String.mk (s.toList.map escapeQueryChar).flatten

/-- Version suffix of the keypair layout (src/asserts/fskeypairmgr.go,
line 34). -/
def privateKeysLayoutVersion : String := "v0"

/-- Name of the versioned subdirectory holding private keys
(src/asserts/fskeypairmgr.go, line 35). -/
def privateKeysRoot : String := "private-keys-" ++ privateKeysLayoutVersion

/-- The filesystem keypair manager: its top directory and the entries
below it, one per (escaped authority-id, key-id) pair.  The directory
tree is modelled as the association list of entries. -/
structure FilesystemKeypairManager where
  top : String
  entries : List ((String × String) × Blob)
deriving DecidableEq, Repr

/-- Look up the stored blob for an (escaped authority-id, key-id) pair. -/
def findEntry : List ((String × String) × Blob) → String × String → Option Blob
  | [], _ => none
  | (k, b) :: rest, key => if k = key then some b else findEntry rest key

/-- Modelled from the spec: `entryExists` (fsentryutils, not in src/)
reports whether the entry file for the pair is present. -/
def entryExists (entries : List ((String × String) × Blob))
    (escapedAuthorityID keyID : String) : Bool :=
  (findEntry entries (escapedAuthorityID, keyID)).isSome

/-- Modelled from the spec: `atomicWriteEntry` (fsentryutils, not in
src/) durably publishes the entry under the pair. -/
def atomicWriteEntry (encoded : Blob)
    (entries : List ((String × String) × Blob))
    (escapedAuthorityID keyID : String) : List ((String × String) × Blob) :=
  ((escapedAuthorityID, keyID), encoded) :: entries

/-- `OpenFSKeypairManager` (src/asserts/fskeypairmgr.go, lines 44–51):
the store lives under `path/private-keys-v0`; `ensureTop` creates the
directory, so a fresh store has no entries. -/
def OpenFSKeypairManager (path : String) : FilesystemKeypairManager :=
  { top := path ++ "/" ++ privateKeysRoot, entries := [] }

/-- Errors of the keypair manager (src/asserts/fskeypairmgr.go:
`errKeypairAlreadyExists`, `errKeypairNotFound`, and the wrapped
"failed to decode key pair" error). -/
inductive KMError where
  | alreadyExists
  | notFound
  | decodeError
deriving DecidableEq, Repr

namespace FilesystemKeypairManager

/-- `Put` (src/asserts/fskeypairmgr.go, lines 55–74): derives the key id
from the private key, escapes the authority id, refuses to overwrite an
existing entry, and otherwise writes the encoded key.  The pair returned
is the store after the call together with the error, if any (on error
the store is unchanged, as the Go method returns before writing). -/
def Put (fskm : FilesystemKeypairManager) (authorityID : String)
    (privKey : PrivateKey) : FilesystemKeypairManager × Option KMError :=
  let keyID := privKey.keyID
  let escapedAuthorityID := queryEscape authorityID
  if entryExists fskm.entries escapedAuthorityID keyID then
    (fskm, some .alreadyExists)
  else
    let encoded := encodePrivateKey privKey
    ({ fskm with
        entries := atomicWriteEntry encoded fskm.entries escapedAuthorityID keyID },
      none)

/-- `Get` (src/asserts/fskeypairmgr.go, lines 78–94): reads the entry
under the escaped authority id; a missing entry is `notFound`, an entry
whose bytes do not decode is `decodeError`. -/
def Get (fskm : FilesystemKeypairManager) (authorityID keyID : String) :
    Except KMError PrivateKey :=
  match findEntry fskm.entries (queryEscape authorityID, keyID) with
  | none => .error .notFound
  | some encoded =>
    match decodePrivateKey encoded with
    | none => .error .decodeError
    | some privKey => .ok privKey

end FilesystemKeypairManager

/-- Modelled from the spec: a public key against which signatures are
verified (§4.3) — its fingerprint and its validity window (timestamps
modelled as naturals). -/
structure PubKey where
  fingerprint : String
  validSince : Nat
  validUntil : Nat
deriving DecidableEq, Repr

/-- Modelled from the spec: one key of the trusted-root set (§ glossary:
keys trusted without needing a covering account-key assertion), keyed by
(authority-id, key-id). -/
structure TrustedKey where
  authorityID : String
  keyID : String
  fingerprint : String
  validSince : Nat
  validUntil : Nat
deriving DecidableEq, Repr

/-- Modelled from the spec: an entry of the fixed assertion type
registry (§3): the type's name, the header names forming its primary
key, and its mandatory headers. -/
structure AssertionType where
  name : String
  primaryKey : List String
  mandatory : List String
deriving DecidableEq, Repr

/-- Modelled from the spec: the registry of assertion types (§3, §9) —
the types exercised by the system: `account-key`, `snap-revision`,
`snap-build`. -/
def assertTypeRegistry : List AssertionType :=
  [ { name := "account-key",
      primaryKey := ["account-id", "public-key-id"],
      mandatory := ["authority-id", "account-id", "public-key-id",
                    "public-key-fingerprint", "since", "until"] },
    { name := "snap-revision",
      primaryKey := ["snap-id", "snap-digest"],
      mandatory := ["authority-id", "snap-id", "snap-digest",
                    "snap-revision", "timestamp"] },
    { name := "snap-build",
      primaryKey := ["snap-id", "snap-digest"],
      mandatory := ["authority-id", "snap-id", "snap-digest", "timestamp"] } ]

/-- Look up an assertion type by name in the registry; an unregistered
name yields `none`. -/
def lookupAssertType (n : String) : Option AssertionType :=
  assertTypeRegistry.find? fun t => t.name == n

/-- The `authority-id` header of an assertion (missing modelled as ""). -/
def Assertion.authorityID (a : Assertion) : String :=
  (a.getHeader "authority-id").getD ""

/-- The `revision` header of an assertion, a non-negative integer
defaulting to 0 (spec §3). -/
def Assertion.revision (a : Assertion) : Nat :=
  ((a.getHeader "revision").bind parseNatStr).getD 0

/-- The validity window of an `account-key` assertion, from its
`since`/`until` headers (timestamps modelled as naturals). -/
def Assertion.window (a : Assertion) : Option (Nat × Nat) :=
  match (a.getHeader "since").bind parseNatStr,
        (a.getHeader "until").bind parseNatStr with
  | some s, some u => some (s, u)
  | _, _ => none

/-- The primary-key tuple of an assertion under a registry entry: the
values of the type's primary-key headers. -/
def primaryTuple (ty : AssertionType) (a : Assertion) : List String :=
  ty.primaryKey.map fun n => (a.getHeader n).getD ""

/-- Modelled from the spec: the Database façade (§2, §4.4) — the
configured trusted-root key set plus the Backstore's current
assertions. -/
structure Database where
  trusted : List TrustedKey
  backstore : List Assertion
deriving DecidableEq, Repr

/-- Modelled from the spec: resolution against the trusted-root set —
the first trusted key with the given (authority-id, key-id) (§4.4
step 1). -/
def findTrustedKey (trusted : List TrustedKey) (auth kid : String) :
    Option PubKey :=
  (trusted.find? fun t => t.authorityID == auth && t.keyID == kid).map
    fun t => { fingerprint := t.fingerprint,
               validSince := t.validSince, validUntil := t.validUntil }

/-- Modelled from the spec: whether a stored assertion is an
`account-key` backing the given (authority-id, key-id) and currently
valid — the Backstore lookup of §4.4 step 1 considers a "currently-stored"
account-key; per the trust-chain soundness property (§8) only a *valid*
stored account-key backs a key, so the validity window must cover the
current time. -/
def accountKeyBacks (now : Nat) (auth kid : String) (a : Assertion) : Bool :=
  a.type == "account-key" &&
  a.getHeader "account-id" == some auth &&
  a.getHeader "public-key-id" == some kid &&
  match a.window with
  | some (s, u) => decide (s ≤ now ∧ now < u)
  | none => false

/-- Modelled from the spec: resolution of a signing key from a stored
`account-key` assertion in the Backstore (§4.4 step 1). -/
def findBackstoreKey (now : Nat) (backstore : List Assertion)
    (auth kid : String) : Option PubKey :=
  (backstore.find? (accountKeyBacks now auth kid)).map fun a =>
    { fingerprint := (a.getHeader "public-key-fingerprint").getD "",
      validSince := (a.window.map Prod.fst).getD 0,
      validUntil := (a.window.map Prod.snd).getD 0 }

/-- Modelled from the spec: two-phase signing-key resolution (§4.4
step 1, §9): the trusted-root set first, else a stored `account-key`
assertion — the chain bottoms out at the root set. -/
def resolveKey (now : Nat) (db : Database) (auth kid : String) :
    Option PubKey :=
  match findTrustedKey db.trusted auth kid with
  | some k => some k
  | none => findBackstoreKey now db.backstore auth kid

/-- Modelled from the spec: the error taxonomy of `Add` (§7). -/
inductive AddError where
  | unknownKey
  | invalidSignature
  | keyNotValid
  | inconsistent
  | superseded
deriving DecidableEq, Repr

/-- Modelled from the spec: the structured reason rendered for each
`Add` failure (§7: every failure carries enough information to render a
precise message). -/
def describeAddError : AddError → String
  | .unknownKey => "no matching public key found"
  | .invalidSignature => "failed signature verification"
  | .keyNotValid => "signing key is not valid at this time"
  | .inconsistent => "inconsistent assertion"
  | .superseded => "revision is older than or equal to the current one"

/-- Modelled from the spec: the `Find`-level error (§4.4). -/
inductive FindError where
  | notFound
deriving DecidableEq, Repr

/-- Whether an assertion's headers satisfy every filter constraint
(exact string equality per header, §4.4). -/
def matchesFilter (a : Assertion) (headerFilter : List (String × String)) :
    Bool :=
  headerFilter.all fun kv => a.getHeader kv.1 == some kv.2

namespace Database

/-- Modelled from the spec: `Add` (§4.4): resolve the signing key
(trusted-root set first, then stored `account-key` assertions), failing
with `unknownKey` when neither yields one; verify the signature
(`invalidSignature` on mismatch) and the key's validity window
(`keyNotValid` outside it); run the type-specific consistency checks
(registered type with all mandatory headers present, else
`inconsistent`); and supersede by revision: an incoming revision not
strictly greater than the stored one for the same (type, primary key)
fails with `superseded`, otherwise the assertion becomes current. -/
def Add (db : Database) (now : Nat) (a : Assertion) :
    Except AddError Database :=
  match resolveKey now db a.authorityID a.sig.keyID with
  | none => .error .unknownKey
  | some key =>
    if ¬ (a.sig.signedBy = key.fingerprint ∧
          a.sig.content = (a.headers, a.body)) then
      .error .invalidSignature
    else if ¬ (key.validSince ≤ now ∧ now < key.validUntil) then
      .error .keyNotValid
    else
      match lookupAssertType a.type with
      | none => .error .inconsistent
      | some ty =>
        if ¬ (ty.mandatory.all fun n => (a.getHeader n).isSome) = true then
          .error .inconsistent
        else
          match db.backstore.find?
              (fun b => b.type == a.type &&
                        primaryTuple ty b == primaryTuple ty a) with
          | some existing =>
            if a.revision ≤ existing.revision then
              .error .superseded
            else
              .ok { db with backstore :=
                      a :: db.backstore.filter fun b =>
                        ! (b.type == a.type &&
                           primaryTuple ty b == primaryTuple ty a) }
          | none => .ok { db with backstore := a :: db.backstore }

/-- Modelled from the spec: `FindMany` (§4.4): every current assertion
of the type whose headers match all filter constraints; no matches give
the empty sequence, not an error. -/
def FindMany (db : Database) (typeName : String)
    (headerFilter : List (String × String)) : List Assertion :=
  db.backstore.filter fun a => a.type == typeName && matchesFilter a headerFilter

/-- Modelled from the spec: `Find` (§4.4): fails with `notFound` unless
exactly one assertion of the type matches the filter. -/
def Find (db : Database) (typeName : String)
    (headerFilter : List (String × String)) : Except FindError Assertion :=
  match FindMany db typeName headerFilter with
  | [a] => .ok a
  | _ => .error .notFound

end Database

/-- Modelled from the spec: the daemon's `POST /assertions` handler
(`doAssert`, §6), taking the outcome of decoding the request body: a
body that does not decode is a 400 whose message the repository's own
test pins as prefixed "can't decode request body into an assertion"; a
failing `Add` is a 400 prefixed "assert failed"; success is a 200.  The
result is the (status, message) pair and the database after the call. -/
def doAssert (now : Nat) (db : Database)
    (decoded : Except String Assertion) : (Nat × String) × Database :=
  match decoded with
  | .error e =>
    ((400, "can't decode request body into an assertion: " ++ e), db)
  | .ok a =>
    match db.Add now a with
    | .error e => ((400, "assert failed: " ++ describeAddError e), db)
    | .ok db' => ((200, ""), db')

/-- Modelled from the spec: the daemon's `GET /assertions/{type}`
handler (§6): a 400 containing "invalid assert type" for an
unregistered type; otherwise a 200 whose `X-Ubuntu-Assertions-Count`
header is the number of matching assertions and whose body is the
bundle of those assertions (the triple is (status, message, optional
(count header, bundle assertions))). -/
def getAsserts (db : Database) (typeName : String)
    (headerFilter : List (String × String)) :
    Nat × String × Option (Nat × List Assertion) :=
  match lookupAssertType typeName with
  | none => (400, "invalid assert type: " ++ typeName, none)
  | some _ =>
    let found := db.FindMany typeName headerFilter
    (200, "", some (found.length, found))

/-- Whether `pat` is a contiguous run starting at some position of the
character list. -/
def charsContain (pat : List Char) : List Char → Bool
  | [] => pat.isEmpty
  | c :: cs => List.isPrefixOf pat (c :: cs) || charsContain pat cs

/-- Whether `pat` occurs as a contiguous substring of `s`. -/
def strContains (s pat : String) : Bool :=
  charsContain pat.toList s.toList

/-- Whether `s` starts with `pat`. -/
def strHasStart (s pat : String) : Bool :=
  List.isPrefixOf pat.toList s.toList

/-- The trusted-root `account-key` of authority `can0nical` (the test
fixture `testTrustedKey`): key id `844efa9730eec4be`, fingerprint
`716ff3cec4b9364a2bd930dc844efa9730eec4be`, with its validity window
(timestamps modelled as naturals). -/
def can0nicalTrustedKey : TrustedKey :=
  { authorityID := "can0nical", keyID := "844efa9730eec4be",
    fingerprint := "716ff3cec4b9364a2bd930dc844efa9730eec4be",
    validSince := 100, validUntil := 200 }

/-- Headers of the `developer1` `account-key` assertion (the test
fixture `testAccKey`): authority `can0nical` vouches for account
`developer1` and its key `adea89b00094c337`. -/
def developer1AccountKeyHeaders : List (String × String) :=
  [("authority-id", "can0nical"), ("account-id", "developer1"),
   ("public-key-id", "adea89b00094c337"),
   ("public-key-fingerprint", "5fa7b16ad5e8c8810d5a0686adea89b00094c337"),
   ("since", "100"), ("until", "200"), ("revision", "1")]

/-- The `developer1` `account-key` assertion, signed by `can0nical`'s
root key (the signature names key id `844efa9730eec4be` and was
produced by the key with `can0nical`'s fingerprint over this
assertion's headers and body). -/
def developer1AccountKey : Assertion :=
  { type := "account-key",
    headers := developer1AccountKeyHeaders,
    body := [0],
    sig := { keyID := "844efa9730eec4be",
             signedBy := "716ff3cec4b9364a2bd930dc844efa9730eec4be",
             content := (developer1AccountKeyHeaders, [0]) } }

/-- A database whose trusted-root set holds `can0nical`'s key and whose
Backstore is empty. -/
def trustedRootDB : Database :=
  { trusted := [can0nicalTrustedKey], backstore := [] }

/-- A database with nothing trusted and an empty Backstore. -/
def emptyTrustDB : Database := { trusted := [], backstore := [] }

/-- The database after `developer1AccountKey` was added on top of the
`can0nical` trusted root. -/
def populatedDB : Database :=
  { trusted := [can0nicalTrustedKey], backstore := [developer1AccountKey] }

/-- A sample private key for the keypair-manager scenarios. -/
def sampleKey : PrivateKey := { keyID := "kid1", material := 7 }

/-- A keypair store holding one well-formed entry and one corrupt
entry for authority `dev1`. -/
def sampleStore : FilesystemKeypairManager :=
  { top := "top/private-keys-v0",
    entries := [(("dev1", "kid1"), Blob.key sampleKey),
                (("dev1", "kidc"), Blob.corrupt 3)] }

/-- A keypair store whose single entry sits under the URL-escaped form
`dev+1` of the authority id `dev 1`. -/
def escapedStore : FilesystemKeypairManager :=
  { top := "t/private-keys-v0",
    entries := [(("dev+1", "kid1"), Blob.key sampleKey)] }

/-- A list is a prefix of itself followed by anything. -/
theorem isPrefixOf_append_self (p rest : List Char) :
    List.isPrefixOf p (p ++ rest) = true := by
  induction p with
  | nil => simp [List.isPrefixOf]
  | cons c cs ih => simp [List.isPrefixOf, ih]

/-- A pattern that starts the character list is contained in it. -/
theorem charsContain_of_isPrefixOf (p l : List Char)
    (h : List.isPrefixOf p l = true) : charsContain p l = true := by
  cases l with
  | nil =>
    cases p with
    | nil => rfl
    | cons c cs => simp [List.isPrefixOf] at h
  | cons c cs => simp [charsContain, h]

/-- A string whose characters start with the pattern followed by a rest
contains the pattern. -/
theorem strContains_of_toList_eq (s pat : String) (rest : List Char)
    (h : s.toList = pat.toList ++ rest) : strContains s pat = true := by
  unfold strContains
  rw [h]
  exact charsContain_of_isPrefixOf _ _ (isPrefixOf_append_self _ _)

/-- A string whose characters start with the pattern followed by a rest
starts with the pattern. -/
theorem strHasStart_of_toList_eq (s pat : String) (rest : List Char)
    (h : s.toList = pat.toList ++ rest) : strHasStart s pat = true := by
  unfold strHasStart
  rw [h]
  exact isPrefixOf_append_self _ _

/-- C1: for every HTTP response processed by the client's `Asserts`
operation with status 200, a parseable `X-Ubuntu-Assertions-Count`
header value `n`, and a body that decodes into a sequence of assertions
up to end-of-stream, `Asserts` returns the decoded assertions exactly
when their number equals `n`, and otherwise fails with the error
"response did not have the expected number of assertions". -/
theorem client_asserts_count_contract (countHeader : String)
    (decoded : List Assertion) (n : Int)
    (hn : goAtoi countHeader = some n) :
    (Client.Asserts 200 countHeader (.ok decoded) = .ok decoded ↔
      (decoded.length : Int) = n) ∧
    ((decoded.length : Int) ≠ n →
      Client.Asserts 200 countHeader (.ok decoded) =
        .error (.errMsg "response did not have the expected number of assertions")) := by
  unfold Client.Asserts
  rw [hn]
  by_cases hlen : (decoded.length : Int) = n <;> simp [hlen]

/-- Witness for C1: a count header of 4 over an empty body (the
`TestClientAssertsMissingAssertions` scenario) is rejected as corrupt. -/
theorem client_asserts_count_contract_witness :
    goAtoi "4" = some 4 ∧
    Client.Asserts 200 "4" (.ok []) =
      .error (.errMsg "response did not have the expected number of assertions") :=
  ⟨by decide, (client_asserts_count_contract "4" [] 4 (by decide)).2 (by decide)⟩

/-- C10: for every HTTP response processed by the client's `Asserts`
operation with status 200 whose `X-Ubuntu-Assertions-Count` header is
absent (the empty string) or does not parse as an integer, `Asserts`
fails with "invalid assertions count" whatever the body decodes to. -/
theorem client_asserts_invalid_count (countHeader : String)
    (bodyDecode : Except String (List Assertion))
    (hp : goAtoi countHeader = none) :
    Client.Asserts 200 countHeader bodyDecode =
      .error (.errMsg "invalid assertions count") := by
  unfold Client.Asserts
  rw [hp]
  simp

/-- Witness for C10: a missing count header (the empty string). -/
theorem client_asserts_invalid_count_witness :
    goAtoi "" = none ∧
    Client.Asserts 200 "" (.ok []) =
      .error (.errMsg "invalid assertions count") :=
  ⟨by decide, client_asserts_invalid_count "" (.ok []) (by decide)⟩

/-- C4: `Put` on the filesystem keypair manager fails with
`alreadyExists` and leaves the store unchanged whenever an entry for the
same (URL-escaped authority-id, derived key-id) pair exists; in
particular, after a successful `Put` a second `Put` with the same key
fails with `alreadyExists` and leaves the store unchanged. -/
theorem keypair_put_already_exists (fskm : FilesystemKeypairManager)
    (authorityID : String) (privKey : PrivateKey) :
    (findEntry fskm.entries (queryEscape authorityID, privKey.keyID) ≠ none →
      fskm.Put authorityID privKey = (fskm, some .alreadyExists)) ∧
    (∀ fskm', fskm.Put authorityID privKey = (fskm', none) →
      fskm'.Put authorityID privKey = (fskm', some .alreadyExists)) := by
  constructor
  · intro h
    have hex : entryExists fskm.entries (queryEscape authorityID) privKey.keyID
        = true := by
      unfold entryExists
      cases hf : findEntry fskm.entries (queryEscape authorityID, privKey.keyID) with
      | none => exact absurd hf h
      | some b => rfl
    unfold FilesystemKeypairManager.Put
    simp [hex]
  · intro fskm' h
    unfold FilesystemKeypairManager.Put at h
    by_cases hex : entryExists fskm.entries (queryEscape authorityID) privKey.keyID
    · simp [hex] at h
    · simp only [Bool.not_eq_true] at hex
      simp only [hex, Bool.false_eq_true, if_false, Prod.mk.injEq] at h
      obtain ⟨hstore, -⟩ := h
      subst hstore
      unfold FilesystemKeypairManager.Put
      have hex' : entryExists
          (atomicWriteEntry (encodePrivateKey privKey) fskm.entries
            (queryEscape authorityID) privKey.keyID)
          (queryEscape authorityID) privKey.keyID = true := by
        unfold entryExists atomicWriteEntry findEntry
        simp
      simp [hex']

/-- Witness for C4: storing a keypair for authority `dev1` twice — the
second `Put` fails with `alreadyExists` and leaves the store as it
was. -/
theorem keypair_put_already_exists_witness :
    (OpenFSKeypairManager "top").Put "dev1" sampleKey =
      ({ top := "top/private-keys-v0",
         entries := [(("dev1", "kid1"), Blob.key sampleKey)] }, none) ∧
    FilesystemKeypairManager.Put
      { top := "top/private-keys-v0",
        entries := [(("dev1", "kid1"), Blob.key sampleKey)] } "dev1" sampleKey =
      ({ top := "top/private-keys-v0",
         entries := [(("dev1", "kid1"), Blob.key sampleKey)] },
        some .alreadyExists) :=
  ⟨by decide,
    (keypair_put_already_exists (OpenFSKeypairManager "top") "dev1" sampleKey).2
      { top := "top/private-keys-v0",
        entries := [(("dev1", "kid1"), Blob.key sampleKey)] }
      (by decide)⟩

/-- C5: `Get` on the filesystem keypair manager fails with `notFound`
exactly when no entry for the (URL-escaped authority-id, key-id) pair
exists, fails with the distinct `decodeError` when an entry exists but
its stored bytes do not decode as a private key, returns the stored
private key otherwise, and the two failure cases are never conflated. -/
theorem keypair_get_distinguishes (fskm : FilesystemKeypairManager)
    (authorityID keyID : String) :
    (fskm.Get authorityID keyID = .error .notFound ↔
      findEntry fskm.entries (queryEscape authorityID, keyID) = none) ∧
    (∀ b, findEntry fskm.entries (queryEscape authorityID, keyID) = some b →
      decodePrivateKey b = none →
      fskm.Get authorityID keyID = .error .decodeError) ∧
    (∀ b k, findEntry fskm.entries (queryEscape authorityID, keyID) = some b →
      decodePrivateKey b = some k →
      fskm.Get authorityID keyID = .ok k) ∧
    KMError.notFound ≠ KMError.decodeError := by
  refine ⟨?_, ?_, ?_, by decide⟩
  · unfold FilesystemKeypairManager.Get
    cases hf : findEntry fskm.entries (queryEscape authorityID, keyID) with
    | none => simp
    | some b => cases hd : decodePrivateKey b <;> simp [hd]
  · intro b hb hd
    simp [FilesystemKeypairManager.Get, hb, hd]
  · intro b k hb hd
    simp [FilesystemKeypairManager.Get, hb, hd]

/-- Witness for C5: on a store holding a good and a corrupt entry for
authority `dev1`, `Get` distinguishes absent, corrupt, and present
entries. -/
theorem keypair_get_distinguishes_witness :
    sampleStore.Get "absent" "kid1" = .error .notFound ∧
    sampleStore.Get "dev1" "kidc" = .error .decodeError ∧
    sampleStore.Get "dev1" "kid1" = .ok sampleKey :=
  ⟨(keypair_get_distinguishes sampleStore "absent" "kid1").1.mpr (by decide),
   (keypair_get_distinguishes sampleStore "dev1" "kidc").2.1
     (Blob.corrupt 3) (by decide) (by decide),
   (keypair_get_distinguishes sampleStore "dev1" "kid1").2.2.1
     (Blob.key sampleKey) sampleKey (by decide) (by decide)⟩

/-- C9: the filesystem keypair manager stores every keypair under the
versioned subdirectory `private-keys-v0` of its root, one entry per
(URL-escaped authority-id, key-id) pair; both `Put` and `Get` address
the entry by the URL-escaped authority-id (they cannot distinguish
authority-ids with the same escaping, so the raw id is never used as
the address). -/
theorem keypair_fs_layout (path : String) (fskm : FilesystemKeypairManager)
    (authorityID : String) (privKey : PrivateKey) :
    privateKeysRoot = "private-keys-v0" ∧
    (OpenFSKeypairManager path).top = path ++ "/" ++ "private-keys-v0" ∧
    (∀ fskm', fskm.Put authorityID privKey = (fskm', none) →
      fskm'.entries =
        ((queryEscape authorityID, privKey.keyID), encodePrivateKey privKey)
          :: fskm.entries ∧
      fskm'.Get authorityID privKey.keyID = .ok privKey) ∧
    (∀ a2, queryEscape authorityID = queryEscape a2 →
      fskm.Put authorityID privKey = fskm.Put a2 privKey ∧
      ∀ kid, fskm.Get authorityID kid = fskm.Get a2 kid) := by
  have hroot : privateKeysRoot = "private-keys-v0" := by decide
  refine ⟨hroot, by rw [OpenFSKeypairManager, hroot], ?_, ?_⟩
  · intro fskm' h
    unfold FilesystemKeypairManager.Put at h
    by_cases hex : entryExists fskm.entries (queryEscape authorityID) privKey.keyID
    · simp [hex] at h
    · simp only [Bool.not_eq_true] at hex
      simp only [hex, Bool.false_eq_true, if_false, Prod.mk.injEq] at h
      obtain ⟨hstore, -⟩ := h
      subst hstore
      refine ⟨rfl, ?_⟩
      unfold FilesystemKeypairManager.Get
      simp [atomicWriteEntry, findEntry, decodePrivateKey, encodePrivateKey]
  · intro a2 hesc
    constructor
    · unfold FilesystemKeypairManager.Put
      rw [hesc]
    · intro kid
      unfold FilesystemKeypairManager.Get
      rw [hesc]

/-- Witness for C9: authority `dev 1` is stored under its URL-escaped
form `dev+1`, and an authority id escaping to the same address reaches
the same entry. -/
theorem keypair_fs_layout_witness :
    privateKeysRoot = "private-keys-v0" ∧
    (OpenFSKeypairManager "top").top = "top" ++ "/" ++ "private-keys-v0" ∧
    escapedStore.entries =
      ((queryEscape "dev 1", sampleKey.keyID), encodePrivateKey sampleKey)
        :: (OpenFSKeypairManager "t").entries ∧
    escapedStore.Get "dev 1" "kid1" = .ok sampleKey := by
  have h := keypair_fs_layout "top" (OpenFSKeypairManager "t") "dev 1" sampleKey
  refine ⟨h.1, h.2.1, (h.2.2.1 escapedStore (by decide)).1,
    (h.2.2.1 escapedStore (by decide)).2⟩

/-- C2: an assertion whose signature names a key-id that is neither in
the trusted-root set (for the assertion's authority-id) nor backed by a
valid `account-key` assertion stored in the Backstore always fails
`Add` with `unknownKey`, is never stored, and the daemon surfaces the
failure as a 400 response whose body contains "assert failed", leaving
the database unchanged. -/
theorem trust_chain_unknown_key (now : Nat) (db : Database) (a : Assertion)
    (h1 : findTrustedKey db.trusted a.authorityID a.sig.keyID = none)
    (h2 : findBackstoreKey now db.backstore a.authorityID a.sig.keyID = none) :
    db.Add now a = .error .unknownKey ∧
    (∀ db', db.Add now a ≠ .ok db') ∧
    (doAssert now db (.ok a)).1.1 = 400 ∧
    strContains (doAssert now db (.ok a)).1.2 "assert failed" = true ∧
    (doAssert now db (.ok a)).2 = db := by
  have hres : resolveKey now db a.authorityID a.sig.keyID = none := by
    unfold resolveKey
    rw [h1, h2]
  have hadd : db.Add now a = .error .unknownKey := by
    unfold Database.Add
    rw [hres]
  have hdo : doAssert now db (.ok a) =
      ((400, "assert failed: " ++ describeAddError .unknownKey), db) := by
    simp only [doAssert, hadd]
  refine ⟨hadd, ?_, by rw [hdo],
    by rw [hdo]
       show strContains ("assert failed: " ++ describeAddError .unknownKey)
         "assert failed" = true
       decide,
    by rw [hdo]⟩
  intro db' hc
  rw [hadd] at hc
  exact Except.noConfusion hc

/-- Witness for C2: adding the `developer1` account-key to a database
with an empty trusted-root set and empty Backstore. -/
theorem trust_chain_unknown_key_witness :
    Database.Add emptyTrustDB 150 developer1AccountKey =
      .error .unknownKey ∧
    (doAssert 150 emptyTrustDB (.ok developer1AccountKey)).1.1 = 400 :=
  ⟨(trust_chain_unknown_key 150 emptyTrustDB developer1AccountKey rfl rfl).1,
   (trust_chain_unknown_key 150 emptyTrustDB developer1AccountKey rfl rfl).2.2.1⟩

/-- C3: with `can0nical`'s account-key in the trusted-root set, adding
the `developer1` account-key signed by `can0nical`'s root key succeeds —
the signing key resolves from the trusted-root set — and afterwards
`Find("account-key", {"account-id": "developer1"})` returns that
assertion: the trust chain bottoms out at the root set. -/
theorem trusted_root_chain_scenario :
    findTrustedKey trustedRootDB.trusted
      developer1AccountKey.authorityID developer1AccountKey.sig.keyID =
      some { fingerprint := "716ff3cec4b9364a2bd930dc844efa9730eec4be",
             validSince := 100, validUntil := 200 } ∧
    trustedRootDB.Add 150 developer1AccountKey = .ok populatedDB ∧
    populatedDB.Find "account-key" [("account-id", "developer1")] =
      .ok developer1AccountKey :=
  ⟨by decide, rfl, rfl⟩

/-- Counterexample for C6: at the concrete undecodable body outcome
"unexpected EOF", the daemon's response is a 400 but its message is not
prefixed "cannot decode request body into an assertion" (the code's
message says "can't", as the repository's own test pins down). -/
theorem assert_decode_message_counterexample :
    (doAssert 0 emptyTrustDB (.error "unexpected EOF")).1.1 = 400 ∧
    strHasStart (doAssert 0 emptyTrustDB (.error "unexpected EOF")).1.2
      "cannot decode request body into an assertion" = false := by
  exact ⟨rfl, by decide⟩

/-- C6 (amended): for every assertion bundle request POSTed to the
daemon whose body does not decode into an assertion, the response is a
400 whose human-readable message is prefixed "can't decode request body
into an assertion", and the database is unchanged. -/
theorem assert_decode_error_message (now : Nat) (db : Database) (e : String) :
    (doAssert now db (.error e)).1.1 = 400 ∧
    strHasStart (doAssert now db (.error e)).1.2
      "can't decode request body into an assertion" = true ∧
    (doAssert now db (.error e)).2 = db := by
  refine ⟨rfl, ?_, rfl⟩
  apply strHasStart_of_toList_eq _ _ ([':', ' '] ++ e.toList)
  show ("can't decode request body into an assertion: " ++ e).toList = _
  rw [show ∀ x y : String, (x ++ y).toList = x.toList ++ y.toList from
        fun x y => String.data_append x y,
      show ("can't decode request body into an assertion: ").toList =
        ("can't decode request body into an assertion").toList ++ [':', ' ']
        from by decide,
      List.append_assoc]

/-- C7: a GET of `/assertions/{type}` for an unregistered assertion
type yields a 400 whose body contains "invalid assert type" and no
bundle. -/
theorem get_asserts_invalid_type (db : Database) (typeName : String)
    (headerFilter : List (String × String))
    (h : lookupAssertType typeName = none) :
    (getAsserts db typeName headerFilter).1 = 400 ∧
    strContains (getAsserts db typeName headerFilter).2.1
      "invalid assert type" = true ∧
    (getAsserts db typeName headerFilter).2.2 = none := by
  have hg : getAsserts db typeName headerFilter =
      (400, "invalid assert type: " ++ typeName, none) := by
    unfold getAsserts
    rw [h]
  refine ⟨by rw [hg], ?_, by rw [hg]⟩
  rw [hg]
  apply strContains_of_toList_eq _ _ ([':', ' '] ++ typeName.toList)
  show ("invalid assert type: " ++ typeName).toList = _
  rw [show ∀ x y : String, (x ++ y).toList = x.toList ++ y.toList from
        fun x y => String.data_append x y,
      show ("invalid assert type: ").toList =
        ("invalid assert type").toList ++ [':', ' '] from by decide,
      List.append_assoc]

/-- Witness for C7: querying `/assertions/foo` for the unregistered
type `foo`. -/
theorem get_asserts_invalid_type_witness :
    (getAsserts emptyTrustDB "foo" []).1 = 400 ∧
    strContains (getAsserts emptyTrustDB "foo" []).2.1
      "invalid assert type" = true :=
  ⟨(get_asserts_invalid_type emptyTrustDB "foo" [] (by decide)).1,
   (get_asserts_invalid_type emptyTrustDB "foo" [] (by decide)).2.1⟩

/-- C8: `FindMany` with zero matching assertions returns the empty
sequence and succeeds, and at the HTTP boundary the daemon answers 200
with an `X-Ubuntu-Assertions-Count` of 0 over the empty bundle. -/
theorem find_many_no_results (db : Database) (typeName : String)
    (headerFilter : List (String × String))
    (hreg : (lookupAssertType typeName).isSome = true)
    (hnone : ∀ a ∈ db.backstore,
      (a.type == typeName && matchesFilter a headerFilter) = false) :
    db.FindMany typeName headerFilter = [] ∧
    getAsserts db typeName headerFilter = (200, "", some (0, [])) := by
  have hfm : db.FindMany typeName headerFilter = [] := by
    unfold Database.FindMany
    rw [List.filter_eq_nil_iff]
    intro a ha
    simp [hnone a ha]
  refine ⟨hfm, ?_⟩
  unfold getAsserts
  cases hl : lookupAssertType typeName with
  | none => rw [hl] at hreg; exact absurd hreg (by simp)
  | some ty => simp [hfm]

/-- Witness for C8: the populated database holds only the `developer1`
account-key, so the filter `account-id = xyzzyx` matches nothing. -/
theorem find_many_no_results_witness :
    Database.FindMany populatedDB "account-key" [("account-id", "xyzzyx")] = [] ∧
    getAsserts populatedDB "account-key" [("account-id", "xyzzyx")] =
      (200, "", some (0, [])) :=
  find_many_no_results populatedDB "account-key" [("account-id", "xyzzyx")]
    (by decide)
    (by intro a ha
        simp only [populatedDB, List.mem_singleton] at ha
        subst ha
        decide)
